import Mathlib

/-!
Shallow embedding of the Exit-Dapp frontend (src/src/App.jsx,
src/src/components/ExitVault.jsx, src/unnamed/part_000 = ConnectWallet.jsx).

The React component state is modelled as explicit records; asynchronous
provider/contract calls are modelled by environment values that say whether
each awaited call succeeds or throws, and with what. JavaScript string
coercions that the error paths use are modelled by small combinators.
-/

namespace ExitDapp

/-- Transaction status of App.jsx line 31: null | pending | confirmed | failed.
The null case is `Option.none` of `Option TxStatus`. -/
inductive TxStatus
| pending
| confirmed
| failed
deriving DecidableEq, Repr

/-- A thrown error object as the catch blocks inspect it: fields code,
data.code, reason, message, each possibly absent. -/
structure ErrObj where
  code : Option Int
  dataCode : Option Int
  reason : Option String
  message : Option String
deriving DecidableEq, Repr

/-- Outcome of one awaited call: it resolves with a value or throws an error. -/
inductive Outcome (α : Type)
| ok (val : α)
| err (e : ErrObj)
deriving DecidableEq, Repr

/-- Whether an awaited call resolved. -/
def Outcome.isOk {α : Type} : Outcome α → Bool
| .ok _ => true
| .err _ => false

/-- A transaction receipt, carrying the status field the code tests. -/
structure Receipt where
  status : Int
deriving DecidableEq, Repr

/-- JavaScript a || b on an optional string a: absent and the empty string
are falsy, so both fall through to b. -/
def jsOrStr (a : Option String) (b : String) : String :=
  match a with
  | some s => if s = "" then b else s
  | none => b

/-- JavaScript a ?? b on an optional string a: only absence falls through. -/
def jsNullish (a : Option String) (b : String) : String :=
  a.getD b

/-- JavaScript string coercion of a plain error object, as produced when the
object itself is concatenated into a message. -/
def errObjString : String := "[object Object]"

/-- The check err?.code === 4001 || err?.data?.code === 4001 of App.jsx
lines 112 and 156. -/
def ErrObj.isUserRejection (e : ErrObj) : Bool :=
  e.code == some 4001 || e.dataCode == some 4001

/-- The expression err?.reason || err?.message || err of App.jsx
lines 115 and 159. -/
def ErrObj.text (e : ErrObj) : String :=
  jsOrStr e.reason (jsOrStr e.message errObjString)

/-- Value of a nonempty digit sequence, none when a non-digit appears. -/
def digitsVal (cs : List Char) : Option Nat :=
  match cs with
  | [] => none
  | _ =>
    cs.foldl
      (fun acc c =>
        match acc with
        | some n => if c.isDigit then some (10 * n + (c.toNat - 48)) else none
        | none => none)
      (some 0)

/-- Drop surrounding whitespace, as Number does on its string argument. -/
def trimWs (cs : List Char) : List Char :=
  ((cs.dropWhile Char.isWhitespace).reverse.dropWhile Char.isWhitespace).reverse

/-- A finite decimal value num / 10 ^ den10, the exact value a decimal
numeral string denotes. -/
structure JsNum where
  num : Int
  den10 : Nat
deriving DecidableEq, Repr

/-- The rational value of a JsNum. -/
def JsNum.val (n : JsNum) : ℚ :=
  (n.num : ℚ) / (10 : ℚ) ^ n.den10

/-- JavaScript Number(s) on the decimal forms relevant here: optional sign,
digits, an optional dot and fraction digits; the empty (or all-whitespace)
string is 0; anything else (hex, exponents, garbage) is NaN, modelled as
none.  Used only through the comparison Number(amount) <= 0, which is false
on NaN. -/
def jsNumber (s : String) : Option JsNum :=
  let t := trimWs s.data
  match t with
  | [] => some ⟨0, 0⟩
  | _ =>
    let (neg, u) :=
      match t with
      | '-' :: rest => (true, rest)
      | '+' :: rest => (false, rest)
      | _ => (false, t)
    let intPart := u.takeWhile (fun c => !(c = '.'))
    let rest := u.dropWhile (fun c => !(c = '.'))
    match rest with
    | [] =>
      (digitsVal intPart).map fun n =>
        ⟨if neg then -(n : Int) else (n : Int), 0⟩
    | _ :: fracPart =>
      if fracPart.contains '.' then none
      else if intPart = [] ∧ fracPart = [] then none
      else
        let iv := if intPart = [] then some 0 else digitsVal intPart
        let fv := if fracPart = [] then some 0 else digitsVal fracPart
        match iv, fv with
        | some a, some b =>
          let m : Int := (a : Int) * 10 ^ fracPart.length + (b : Int)
          some ⟨if neg then -m else m, fracPart.length⟩
        | _, _ => none

/-- The invest guard !amount || Number(amount) <= 0 of App.jsx line 77:
true when the amount entry is rejected.  The comparison of the parsed
value with 0 is decided on the integer mantissa; JsNum.le_zero_iff below
shows this agrees with the comparison of the denoted rational value.
NaN <= 0 is false in JavaScript, so an unparseable nonempty string passes
the guard. -/
def amountGuardFails (amount : String) : Bool :=
  amount = "" ||
    (match jsNumber amount with
     | some q => decide (q.num ≤ 0)
     | none => false)

/-- Digit characters of a natural number. -/
def natChars (n : Nat) : List Char :=
  (toString n).data

/-- Left-pad with zeros to the given length. -/
def padLeftZeros (len : Nat) (cs : List Char) : List Char :=
  List.replicate (len - cs.length) '0' ++ cs

/-- Strip trailing zero characters. -/
def stripTrailingZeros (cs : List Char) : List Char :=
  (cs.reverse.dropWhile (fun c => c = '0')).reverse

/-- ethers.formatEther: wei (smallest-unit integer) to a decimal
ETH-denominated string, always with a decimal point and at least one
fraction digit, e.g. 0 -> 0.0 and 5 * 10^17 -> 0.5. -/
def formatEther (wei : Nat) : String :=
  let whole := wei / 10 ^ 18
  let frac := wei % 10 ^ 18
  let fracStr := stripTrailingZeros (padLeftZeros 18 (natChars frac))
  String.mk (natChars whole ++ '.' :: (if fracStr = [] then ['0'] else fracStr))

/-- The EXPLORER_BY_CHAIN table of App.jsx lines 14-18. -/
def EXPLORER_BY_CHAIN (chainId : Nat) : Option String :=
  if chainId = 1 then some "https://etherscan.io"
  else if chainId = 5 then some "https://goerli.etherscan.io"
  else if chainId = 11155111 then some "https://sepolia.etherscan.io"
  else none

/-- explorerBaseForChain of App.jsx lines 20-22: table entry, with ??
falling back to the mainnet explorer root. -/
def explorerBaseForChain (chainId : Nat) : String :=
  (EXPLORER_BY_CHAIN chainId).getD "https://etherscan.io"

/-- The explorer link of App.jsx line 271: explorerBase/tx/hash. -/
def txLink (explorerBase hash : String) : String :=
  explorerBase ++ "/tx/" ++ hash

/-- Component state of App.jsx lines 25-34.  Provider and contract handles
are modelled by opaque string identifiers. -/
structure AppState where
  account : Option String
  provider : Option String
  contract : Option String
  balance : String
  amount : String
  loading : Bool
  txStatus : Option TxStatus
  txHash : Option String
  message : String
  explorerBase : String
deriving DecidableEq, Repr

/-- One run of the component: its state plus two observation logs used by
the statements: every value passed to setTxStatus, in order, and every
vault.balances(addr) read that was actually issued, as (vault, addr). -/
structure Run where
  state : AppState
  statusWrites : List (Option TxStatus)
  balanceReads : List (String × String)
deriving DecidableEq, Repr

/-- Record a setTxStatus call: update the state and log the written value. -/
def setTxStatusR (r : Run) (v : Option TxStatus) : Run :=
  { r with state := { r.state with txStatus := v },
           statusWrites := r.statusWrites ++ [v] }

/-- Environment of one invest/withdraw call: the submission
(contract.invest / contract.withdraw, together with everything else inside
the try block before setTxStatus("pending"), such as parseEther) resolves
with a transaction hash or throws; txResponse.wait resolves with a receipt
(possibly null) or throws; the vault.balances read of the final refresh
resolves with a wei amount or throws. -/
structure TxEnv where
  submit : Outcome String
  wait : Outcome (Option Receipt)
  bal : Outcome Nat
deriving DecidableEq, Repr

/-- fetchVaultBalance of App.jsx lines 55-69.  The guard returns early when
either handle is missing (the finally still clears loading); otherwise the
balances read is issued and logged; on resolution the wei value is stored
formatted, on a throw the message reports it and the balance is untouched. -/
def fetchVaultBalance (r : Run) (vault addr : Option String) (out : Outcome Nat) : Run :=
  match vault, addr with
  | some v, some a =>
    let r := { r with balanceReads := r.balanceReads ++ [(v, a)] }
    match out with
    | .ok raw =>
      { r with state := { r.state with
          balance := formatEther raw,
          message := "Balance updated",
          loading := false } }
    | .err e =>
      { r with state := { r.state with
          message := "Failed to fetch balance: " ++ jsNullish e.message errObjString,
          loading := false } }
  | _, _ => { r with state := { r.state with loading := false } }

/-- Catch block of invest, App.jsx lines 110-117, plus the finally:
special-cased user rejection message, otherwise the generic text, then
status failed and loading cleared. -/
def investCatch (r : Run) (e : ErrObj) : Run :=
  let r := { r with state := { r.state with
      message := if e.isUserRejection then "Transaction rejected by user."
                 else "Investment failed: " ++ e.text } }
  let r := setTxStatusR r (some .failed)
  { r with state := { r.state with loading := false } }

/-- invest of App.jsx lines 72-121. -/
def invest (r : Run) (env : TxEnv) : Run :=
  match r.state.contract with
  | none => { r with state := { r.state with message := "Connect wallet first" } }
  | some vault =>
    if amountGuardFails r.state.amount then
      { r with state := { r.state with message := "Enter a valid amount in ETH" } }
    else
      let r := setTxStatusR r none
      let r := { r with state := { r.state with
          txHash := none, loading := true, message := "Preparing transaction..." } }
      match env.submit with
      | .err e => investCatch r e
      | .ok hash =>
        let r := setTxStatusR r (some .pending)
        let r := { r with state := { r.state with
            txHash := some hash,
            message := "Transaction submitted. Waiting for confirmation..." } }
        match env.wait with
        | .err e => investCatch r e
        | .ok receipt =>
          let r :=
            match receipt with
            | some rc =>
              if rc.status = 1 then
                let r := setTxStatusR r (some .confirmed)
                { r with state := { r.state with
                    message := "Investment confirmed — Tx: " ++ hash } }
              else
                let r := setTxStatusR r (some .failed)
                { r with state := { r.state with
                    message := "Transaction failed (receipt.status !== 1). Tx: " ++ hash } }
            | none =>
              let r := setTxStatusR r (some .failed)
              { r with state := { r.state with
                  message := "Transaction failed (receipt.status !== 1). Tx: " ++ hash } }
          let r := fetchVaultBalance r (some vault) r.state.account env.bal
          let r := { r with state := { r.state with amount := "" } }
          { r with state := { r.state with loading := false } }

/-- Catch block of withdraw, App.jsx lines 154-161, plus the finally. -/
def withdrawCatch (r : Run) (e : ErrObj) : Run :=
  let r := { r with state := { r.state with
      message := if e.isUserRejection then "Transaction rejected by user."
                 else "Withdrawal failed: " ++ e.text } }
  let r := setTxStatusR r (some .failed)
  { r with state := { r.state with loading := false } }

/-- withdraw of App.jsx lines 124-165. -/
def withdraw (r : Run) (env : TxEnv) : Run :=
  match r.state.contract with
  | none => { r with state := { r.state with message := "Connect wallet first" } }
  | some vault =>
    let r := setTxStatusR r none
    let r := { r with state := { r.state with
        txHash := none, loading := true, message := "Submitting withdrawal..." } }
    match env.submit with
    | .err e => withdrawCatch r e
    | .ok hash =>
      let r := setTxStatusR r (some .pending)
      let r := { r with state := { r.state with
          txHash := some hash,
          message := "Withdrawal submitted. Waiting for confirmation..." } }
      match env.wait with
      | .err e => withdrawCatch r e
      | .ok receipt =>
        let r :=
          match receipt with
          | some rc =>
            if rc.status = 1 then
              let r := setTxStatusR r (some .confirmed)
              { r with state := { r.state with
                  message := "Withdrawal confirmed — Tx: " ++ hash } }
            else
              let r := setTxStatusR r (some .failed)
              { r with state := { r.state with
                  message := "Withdrawal failed — Tx: " ++ hash } }
          | none =>
            let r := setTxStatusR r (some .failed)
            { r with state := { r.state with
                message := "Withdrawal failed — Tx: " ++ hash } }
        let r := fetchVaultBalance r (some vault) r.state.account env.bal
        { r with state := { r.state with loading := false } }

/-- onAccountsChanged of App.jsx lines 170-180: empty list clears account
and contract and reports Disconnected; a nonempty list adopts the first
address and, when a contract handle exists, refreshes the balance with it
for that address. -/
def onAccountsChanged (r : Run) (accounts : List String) (balOut : Outcome Nat) : Run :=
  match accounts with
  | [] =>
    { r with state := { r.state with
        account := none, contract := none, message := "Disconnected" } }
  | a :: _ =>
    let r := { r with state := { r.state with
        account := some a, message := "Account changed: " ++ a } }
    match r.state.contract with
    | some c => fetchVaultBalance r (some c) (some a) balOut
    | none => r

/-- Activity-log entry of ExitVault.jsx: hash or synthetic event key, note,
and a timestamp string. -/
structure TxEntry where
  hash : String
  note : String
  time : String
deriving DecidableEq, Repr

/-- addTx of ExitVault.jsx lines 111-113: prepend the new entry and keep
the first 20. -/
def addTx (txs : List TxEntry) (e : TxEntry) : List TxEntry :=
  (e :: txs).take 20

/-- State of ExitVault.jsx touched by fetchBalance: the displayed balance
and the status line. -/
structure EVState where
  balanceEth : String
  status : String
deriving DecidableEq, Repr

/-- fetchBalance of ExitVault.jsx lines 55-66: missing handle or address
returns early; a resolved getBalance read is stored formatted; a throw is
caught into the status line, leaving the displayed balance unchanged. -/
def fetchBalance (st : EVState) (c addr : Option String) (out : Outcome Nat) : EVState :=
  match c, addr with
  | some _, some _ =>
    match out with
    | .ok bal => { st with balanceEth := formatEther bal }
    | .err e =>
      { st with status := "Failed to fetch balance: " ++ jsOrStr e.message errObjString }
  | _, _ => st

/-- The payload connectWallet passes to onConnected (ConnectWallet.jsx
line 28): provider, signer, contract handle, address.  Handles are opaque
identifiers. -/
structure ConnectPayload where
  provider : String
  signer : String
  contract : String
  address : String
deriving DecidableEq, Repr

/-- Environment of one connectWallet call (ConnectWallet.jsx lines 8-33):
whether window.ethereum is present, and the outcomes of the three awaited
steps: prov.send("eth_requestAccounts"), prov.getSigner() (yielding a
signer handle), signer.getAddress() (yielding the address). -/
structure ConnectEnv where
  hasEthereum : Bool
  requestAccounts : Outcome Unit
  signerStep : Outcome String
  addressStep : Outcome String
deriving DecidableEq, Repr

/-- Observable result of connectWallet: the alert text if one fired, and
the payload handed to the onConnected callback if it was invoked. -/
structure ConnectResult where
  alerted : Option String
  callback : Option ConnectPayload
deriving DecidableEq, Repr

/-- Catch block of connectWallet, ConnectWallet.jsx lines 29-32. -/
def connectCatch (e : ErrObj) : ConnectResult :=
  { alerted := some ("Failed to connect wallet: " ++ jsNullish e.message errObjString),
    callback := none }

/-- connectWallet of ConnectWallet.jsx lines 8-33: missing injected wallet
alerts and returns; otherwise the three awaited steps run in order inside
the try, any throw lands in the catch, and on full success the callback
receives the constructed handles and the address. -/
def connectWallet (env : ConnectEnv) : ConnectResult :=
  if !env.hasEthereum then
    { alerted := some "MetaMask not detected", callback := none }
  else
    match env.requestAccounts with
    | .err e => connectCatch e
    | .ok _ =>
      match env.signerStep with
      | .err e => connectCatch e
      | .ok signer =>
        match env.addressStep with
        | .err e => connectCatch e
        | .ok addr =>
          { alerted := none,
            callback := some
              { provider := "BrowserProvider", signer := signer,
                contract := "ExitVault", address := addr } }

/-- First error thrown inside the connectWallet try block, if any. -/
def connectFailure (env : ConnectEnv) : Option ErrObj :=
  match env.requestAccounts with
  | .err e => some e
  | .ok _ =>
    match env.signerStep with
    | .err e => some e
    | .ok _ =>
      match env.addressStep with
      | .err e => some e
      | .ok _ => none

/-- Whether the transaction environment reaches a receipt whose status
field is 1: the exact condition of App.jsx lines 100 and 145. -/
def envConfirms (env : TxEnv) : Bool :=
  match env.submit with
  | .ok _ =>
    match env.wait with
    | .ok (some rc) => rc.status == 1
    | _ => false
  | .err _ => false

/-- Whether the transaction environment delivers a receipt at all (neither
the submission nor the wait throws). -/
def envHasReceipt (env : TxEnv) : Bool :=
  env.submit.isOk && env.wait.isOk

/-- Sequence of setTxStatus writes one invest/withdraw call makes once past
its guards, per environment. -/
def envWrites (env : TxEnv) : List (Option TxStatus) :=
  match env.submit with
  | .err _ => [none, some .failed]
  | .ok _ =>
    match env.wait with
    | .err _ => [none, some .pending, some .failed]
    | .ok (some rc) =>
      [none, some .pending,
       if rc.status = 1 then some .confirmed else some .failed]
    | .ok none => [none, some .pending, some .failed]

/-- The mantissa comparison used by amountGuardFails agrees with comparing
the denoted rational value with zero. -/
lemma JsNum.le_zero_iff (n : JsNum) : n.val ≤ 0 ↔ n.num ≤ 0 := by
  unfold JsNum.val
  rw [div_nonpos_iff]
  have h : (0 : ℚ) < 10 ^ n.den10 := by positivity
  constructor
  · rintro (⟨h1, h2⟩ | ⟨h1, h2⟩)
    · exact absurd h2 (not_le.mpr h)
    · exact_mod_cast h1
  · intro h1
    right
    exact ⟨by exact_mod_cast h1, le_of_lt h⟩

/-- Fields fetchVaultBalance never writes. -/
lemma fetchVaultBalance_frame (r : Run) (v a : Option String) (out : Outcome Nat) :
    (fetchVaultBalance r v a out).state.txStatus = r.state.txStatus
    ∧ (fetchVaultBalance r v a out).statusWrites = r.statusWrites
    ∧ (fetchVaultBalance r v a out).state.amount = r.state.amount
    ∧ (fetchVaultBalance r v a out).state.account = r.state.account
    ∧ (fetchVaultBalance r v a out).state.contract = r.state.contract
    ∧ (fetchVaultBalance r v a out).state.txHash = r.state.txHash := by
  unfold fetchVaultBalance
  cases v <;> cases a <;> cases out <;> simp

/-- With no contract handle, invest only writes the message. -/
lemma invest_noContract (r : Run) (env : TxEnv) (hc : r.state.contract = none) :
    invest r env = { r with state := { r.state with message := "Connect wallet first" } } := by
  unfold invest
  rw [hc]

/-- With a rejected amount entry, invest only writes the message. -/
lemma invest_badAmount (r : Run) (env : TxEnv) (v : String)
    (hc : r.state.contract = some v) (ha : amountGuardFails r.state.amount = true) :
    invest r env = { r with state := { r.state with message := "Enter a valid amount in ETH" } } := by
  unfold invest
  rw [hc]
  simp only [ha, if_true]

/-- With no contract handle, withdraw only writes the message. -/
lemma withdraw_noContract (r : Run) (env : TxEnv) (hc : r.state.contract = none) :
    withdraw r env = { r with state := { r.state with message := "Connect wallet first" } } := by
  unfold withdraw
  rw [hc]

/-- The setTxStatus writes of one invest call past its guards. -/
lemma invest_statusWrites_eq (r : Run) (env : TxEnv) (v : String)
    (hc : r.state.contract = some v) (ha : amountGuardFails r.state.amount = false) :
    (invest r env).statusWrites = r.statusWrites ++ envWrites env := by
  obtain ⟨sub, wt, bal⟩ := env
  unfold invest envWrites
  rw [hc]
  simp only [ha, Bool.false_eq_true, if_false]
  cases sub with
  | err e => simp [setTxStatusR, investCatch]
  | ok h =>
    cases wt with
    | err e => simp [setTxStatusR, investCatch]
    | ok rc =>
      cases rc with
      | none => simp [setTxStatusR, (fetchVaultBalance_frame _ _ _ _).2.1]
      | some rcv =>
        by_cases h1 : rcv.status = 1 <;>
          simp [h1, setTxStatusR, (fetchVaultBalance_frame _ _ _ _).2.1]

/-- The setTxStatus writes of one withdraw call past its guard. -/
lemma withdraw_statusWrites_eq (r : Run) (env : TxEnv) (v : String)
    (hc : r.state.contract = some v) :
    (withdraw r env).statusWrites = r.statusWrites ++ envWrites env := by
  obtain ⟨sub, wt, bal⟩ := env
  unfold withdraw envWrites
  rw [hc]
  cases sub with
  | err e => simp [setTxStatusR, withdrawCatch]
  | ok h =>
    cases wt with
    | err e => simp [setTxStatusR, withdrawCatch]
    | ok rc =>
      cases rc with
      | none => simp [setTxStatusR, (fetchVaultBalance_frame _ _ _ _).2.1]
      | some rcv =>
        by_cases h1 : rcv.status = 1 <;>
          simp [h1, setTxStatusR, (fetchVaultBalance_frame _ _ _ _).2.1]

/-- Final status of one invest call past its guards: confirmed exactly on a
status-1 receipt, failed otherwise. -/
lemma invest_txStatus_eq (r : Run) (env : TxEnv) (v : String)
    (hc : r.state.contract = some v) (ha : amountGuardFails r.state.amount = false) :
    (invest r env).state.txStatus =
      (if envConfirms env then some TxStatus.confirmed else some TxStatus.failed) := by
  obtain ⟨sub, wt, bal⟩ := env
  unfold invest envConfirms
  rw [hc]
  simp only [ha, Bool.false_eq_true, if_false]
  cases sub with
  | err e => simp [setTxStatusR, investCatch]
  | ok h =>
    cases wt with
    | err e => simp [setTxStatusR, investCatch]
    | ok rc =>
      cases rc with
      | none => simp [setTxStatusR, (fetchVaultBalance_frame _ _ _ _).1]
      | some rcv =>
        by_cases h1 : rcv.status = 1 <;>
          simp [h1, setTxStatusR, (fetchVaultBalance_frame _ _ _ _).1]

/-- Final status of one withdraw call past its guard. -/
lemma withdraw_txStatus_eq (r : Run) (env : TxEnv) (v : String)
    (hc : r.state.contract = some v) :
    (withdraw r env).state.txStatus =
      (if envConfirms env then some TxStatus.confirmed else some TxStatus.failed) := by
  obtain ⟨sub, wt, bal⟩ := env
  unfold withdraw envConfirms
  rw [hc]
  cases sub with
  | err e => simp [setTxStatusR, withdrawCatch]
  | ok h =>
    cases wt with
    | err e => simp [setTxStatusR, withdrawCatch]
    | ok rc =>
      cases rc with
      | none => simp [setTxStatusR, (fetchVaultBalance_frame _ _ _ _).1]
      | some rcv =>
        by_cases h1 : rcv.status = 1 <;>
          simp [h1, setTxStatusR, (fetchVaultBalance_frame _ _ _ _).1]

/-- fetchVaultBalance issues exactly one balances read when both handles
are present, whether it resolves or throws. -/
lemma fetchVaultBalance_reads (r : Run) (v a : String) (out : Outcome Nat) :
    (fetchVaultBalance r (some v) (some a) out).balanceReads = r.balanceReads ++ [(v, a)] := by
  unfold fetchVaultBalance
  cases out <;> simp

/-- Balances reads of one invest call past its guards: exactly one read
when a receipt is delivered, none when the try block throws. -/
lemma invest_balanceReads_eq (r : Run) (env : TxEnv) (v a : String)
    (hc : r.state.contract = some v) (hac : r.state.account = some a)
    (ha : amountGuardFails r.state.amount = false) :
    (invest r env).balanceReads =
      r.balanceReads ++ (if envHasReceipt env then [(v, a)] else []) := by
  obtain ⟨sub, wt, bal⟩ := env
  unfold invest envHasReceipt
  rw [hc]
  simp only [ha, Bool.false_eq_true, if_false]
  cases sub with
  | err e => simp [setTxStatusR, investCatch, Outcome.isOk]
  | ok h =>
    cases wt with
    | err e => simp [setTxStatusR, investCatch, Outcome.isOk]
    | ok rc =>
      cases rc with
      | none => simp [setTxStatusR, Outcome.isOk, hac, fetchVaultBalance_reads]
      | some rcv =>
        by_cases h1 : rcv.status = 1 <;>
          simp [h1, setTxStatusR, Outcome.isOk, hac, fetchVaultBalance_reads]

/-- Balances reads of one withdraw call past its guard. -/
lemma withdraw_balanceReads_eq (r : Run) (env : TxEnv) (v a : String)
    (hc : r.state.contract = some v) (hac : r.state.account = some a) :
    (withdraw r env).balanceReads =
      r.balanceReads ++ (if envHasReceipt env then [(v, a)] else []) := by
  obtain ⟨sub, wt, bal⟩ := env
  unfold withdraw envHasReceipt
  rw [hc]
  cases sub with
  | err e => simp [setTxStatusR, withdrawCatch, Outcome.isOk]
  | ok h =>
    cases wt with
    | err e => simp [setTxStatusR, withdrawCatch, Outcome.isOk]
    | ok rc =>
      cases rc with
      | none => simp [setTxStatusR, Outcome.isOk, hac, fetchVaultBalance_reads]
      | some rcv =>
        by_cases h1 : rcv.status = 1 <;>
          simp [h1, setTxStatusR, Outcome.isOk, hac, fetchVaultBalance_reads]

/-- The amount field after one invest call past its guards: cleared exactly
when a receipt is delivered. -/
lemma invest_amount_eq (r : Run) (env : TxEnv) (v : String)
    (hc : r.state.contract = some v) (ha : amountGuardFails r.state.amount = false) :
    (invest r env).state.amount = (if envHasReceipt env then "" else r.state.amount) := by
  obtain ⟨sub, wt, bal⟩ := env
  unfold invest envHasReceipt
  rw [hc]
  simp only [ha, Bool.false_eq_true, if_false]
  cases sub with
  | err e => simp [setTxStatusR, investCatch, Outcome.isOk]
  | ok h =>
    cases wt with
    | err e => simp [setTxStatusR, investCatch, Outcome.isOk]
    | ok rc =>
      cases rc with
      | none => simp [setTxStatusR, Outcome.isOk]
      | some rcv =>
        by_cases h1 : rcv.status = 1 <;> simp [h1, setTxStatusR, Outcome.isOk]

/-- withdraw never writes the amount field, on any path. -/
lemma withdraw_amount_frame (r : Run) (env : TxEnv) :
    (withdraw r env).state.amount = r.state.amount := by
  obtain ⟨sub, wt, bal⟩ := env
  unfold withdraw
  cases hcc : r.state.contract with
  | none => rfl
  | some v =>
    cases sub with
    | err e => simp [setTxStatusR, withdrawCatch]
    | ok h =>
      cases wt with
      | err e => simp [setTxStatusR, withdrawCatch]
      | ok rc =>
        cases rc with
        | none => simp [setTxStatusR, (fetchVaultBalance_frame _ _ _ _).2.2.1]
        | some rcv =>
          by_cases h1 : rcv.status = 1 <;>
            simp [h1, setTxStatusR, (fetchVaultBalance_frame _ _ _ _).2.2.1]

/-- Effect of one invest call whose submission throws: caught message with
the user-rejection special case, status failed, no balances read. -/
lemma invest_submit_throws (r : Run) (env : TxEnv) (v : String) (e : ErrObj)
    (hc : r.state.contract = some v) (ha : amountGuardFails r.state.amount = false)
    (hs : env.submit = .err e) :
    (invest r env).state.message =
      (if e.isUserRejection then "Transaction rejected by user."
       else "Investment failed: " ++ e.text)
    ∧ (invest r env).state.txStatus = some TxStatus.failed
    ∧ (invest r env).balanceReads = r.balanceReads := by
  obtain ⟨sub, wt, bal⟩ := env
  simp only at hs
  subst hs
  unfold invest
  rw [hc]
  simp [ha, investCatch, setTxStatusR]

/-- Effect of one withdraw call whose submission throws. -/
lemma withdraw_submit_throws (r : Run) (env : TxEnv) (v : String) (e : ErrObj)
    (hc : r.state.contract = some v) (hs : env.submit = .err e) :
    (withdraw r env).state.message =
      (if e.isUserRejection then "Transaction rejected by user."
       else "Withdrawal failed: " ++ e.text)
    ∧ (withdraw r env).state.txStatus = some TxStatus.failed
    ∧ (withdraw r env).balanceReads = r.balanceReads := by
  obtain ⟨sub, wt, bal⟩ := env
  simp only at hs
  subst hs
  unfold withdraw
  rw [hc]
  simp [withdrawCatch, setTxStatusR]

/-- Taking n of an append absorbs an inner take n on the right part. -/
lemma take_append_take {α : Type} (xs ys : List α) (n : Nat) :
    (xs ++ ys.take n).take n = (xs ++ ys).take n := by
  rw [List.take_append_eq_append_take, List.take_append_eq_append_take, List.take_take]
  congr 1
  rw [Nat.min_eq_left (Nat.sub_le n xs.length)]

/-- Folding addTx keeps the 20 most recent entries, newest first. -/
lemma foldl_addTx (es : List TxEntry) (acc : List TxEntry) (h : acc.length ≤ 20) :
    es.foldl addTx acc = (es.reverse ++ acc).take 20 := by
  induction es generalizing acc with
  | nil => simp [List.take_of_length_le h]
  | cons x es ih =>
    rw [List.foldl_cons, ih (addTx acc x) (by simp [addTx])]
    simp only [addTx, List.reverse_cons, List.append_assoc]
    rw [take_append_take]
    simp

/-- The write sequence of one past-guard call is one of the three legal
paths of the status machine. -/
lemma envWrites_shape (env : TxEnv) :
    envWrites env = [none, some TxStatus.failed]
    ∨ envWrites env = [none, some TxStatus.pending, some TxStatus.confirmed]
    ∨ envWrites env = [none, some TxStatus.pending, some TxStatus.failed] := by
  obtain ⟨sub, wt, bal⟩ := env
  unfold envWrites
  cases sub with
  | err e => simp
  | ok h =>
    cases wt with
    | err e => simp
    | ok rc =>
      cases rc with
      | none => simp
      | some rcv => by_cases h1 : rcv.status = 1 <;> simp [h1]

/-- Every past-guard call resets the status to none first. -/
lemma envWrites_head (env : TxEnv) : (envWrites env).head? = some none := by
  obtain ⟨sub, wt, bal⟩ := env
  unfold envWrites
  cases sub with
  | err e => rfl
  | ok h =>
    cases wt with
    | err e => rfl
    | ok rc =>
      cases rc with
      | none => rfl
      | some rcv => by_cases h1 : rcv.status = 1 <;> simp [h1]

/-- pending is written exactly when the submission is accepted. -/
lemma envWrites_pending (env : TxEnv) :
    some TxStatus.pending ∈ envWrites env ↔ env.submit.isOk = true := by
  obtain ⟨sub, wt, bal⟩ := env
  unfold envWrites
  cases sub with
  | err e => simp [Outcome.isOk]
  | ok h =>
    cases wt with
    | err e => simp [Outcome.isOk]
    | ok rc =>
      cases rc with
      | none => simp [Outcome.isOk]
      | some rcv => by_cases h1 : rcv.status = 1 <;> simp [h1, Outcome.isOk]

/-- C1: for every invocation of invest or withdraw on a connected session
(contract handle present, and for invest an accepted amount entry), the
Transaction Status writes follow the machine none → pending →
{confirmed, failed}: the status is reset to none at the start of the call,
set to pending exactly when the provider accepts the submission, the final
status is confirmed exactly when the receipt carries status 1, and failed
whenever it does not (receipt failure indicator, missing receipt, or a
throw). -/
theorem C1_tx_status_state_machine (r : Run) (env : TxEnv) (v : String)
    (hw : r.statusWrites = []) (hc : r.state.contract = some v) :
    (amountGuardFails r.state.amount = false →
      (invest r env).statusWrites = envWrites env
      ∧ (invest r env).statusWrites.head? = some none
      ∧ (some TxStatus.pending ∈ (invest r env).statusWrites ↔ env.submit.isOk = true)
      ∧ ((invest r env).state.txStatus = some TxStatus.confirmed ↔ envConfirms env = true)
      ∧ (envConfirms env = false → (invest r env).state.txStatus = some TxStatus.failed))
    ∧ ((withdraw r env).statusWrites = envWrites env
      ∧ (withdraw r env).statusWrites.head? = some none
      ∧ (some TxStatus.pending ∈ (withdraw r env).statusWrites ↔ env.submit.isOk = true)
      ∧ ((withdraw r env).state.txStatus = some TxStatus.confirmed ↔ envConfirms env = true)
      ∧ (envConfirms env = false → (withdraw r env).state.txStatus = some TxStatus.failed))
    ∧ (envWrites env = [none, some TxStatus.failed]
      ∨ envWrites env = [none, some TxStatus.pending, some TxStatus.confirmed]
      ∨ envWrites env = [none, some TxStatus.pending, some TxStatus.failed]) := by
  refine ⟨fun ha => ?_, ?_, envWrites_shape env⟩
  · rw [invest_statusWrites_eq r env v hc ha, invest_txStatus_eq r env v hc ha, hw]
    refine ⟨by simp, by simp [envWrites_head env], by simp [envWrites_pending env], ?_, ?_⟩
    · by_cases hcf : envConfirms env <;> simp [hcf]
    · intro hcf
      simp [hcf]
  · rw [withdraw_statusWrites_eq r env v hc, withdraw_txStatus_eq r env v hc, hw]
    refine ⟨by simp, by simp [envWrites_head env], by simp [envWrites_pending env], ?_, ?_⟩
    · by_cases hcf : envConfirms env <;> simp [hcf]
    · intro hcf
      simp [hcf]

/-- Witness for C1 at a concrete connected run with amount 0.5 and a
rejected submission. -/
theorem C1_tx_status_state_machine_witness :
    (invest
      ⟨{ account := some "0xabc", provider := some "prov", contract := some "vault",
         balance := "0", amount := "0.5", loading := false, txStatus := none,
         txHash := none, message := "", explorerBase := "https://etherscan.io" }, [], []⟩
      ⟨.err ⟨some 4001, none, none, none⟩, .ok none, .ok 0⟩).statusWrites.head? = some none :=
  ((C1_tx_status_state_machine
      ⟨{ account := some "0xabc", provider := some "prov", contract := some "vault",
         balance := "0", amount := "0.5", loading := false, txStatus := none,
         txHash := none, message := "", explorerBase := "https://etherscan.io" }, [], []⟩
      ⟨.err ⟨some 4001, none, none, none⟩, .ok none, .ok 0⟩
      "vault" rfl rfl).1 (by decide)).2.1

/-- C2 counterexample: a fresh page has status none; an invest call with no
contract handle runs to completion and leaves it none, not one of
{pending, confirmed, failed}; likewise a new invest started after a
confirmed action, with the contract handle gone, leaves the stale
confirmed value in place. -/
theorem C2_status_after_action_counterexample :
    (invest
      ⟨{ account := none, provider := none, contract := none,
         balance := "0", amount := "1", loading := false, txStatus := none,
         txHash := none, message := "", explorerBase := "https://etherscan.io" }, [], []⟩
      ⟨.ok "0xh", .ok (some ⟨1⟩), .ok 0⟩).state.txStatus = none
    ∧ (invest
      ⟨{ account := some "0xabc", provider := some "prov", contract := none,
         balance := "0", amount := "1", loading := false, txStatus := some .confirmed,
         txHash := some "0xold", message := "", explorerBase := "https://etherscan.io" }, [], []⟩
      ⟨.ok "0xh", .ok (some ⟨1⟩), .ok 0⟩).state.txStatus = some TxStatus.confirmed := by
  exact ⟨rfl, rfl⟩

/-- C2 amended: after an invest or withdraw that passes its guards runs to
completion, the Transaction Status is one of {confirmed, failed} (hence in
{pending, confirmed, failed}) and was reset at the start; an action whose
guard fails (no contract handle, or for invest a rejected amount entry)
returns early and leaves the Transaction Status unchanged, so a stale
value from a previous action persists there. -/
theorem C2_status_after_action_amended (r : Run) (env : TxEnv) (v : String)
    (hc : r.state.contract = some v) :
    (amountGuardFails r.state.amount = false →
      (invest r env).state.txStatus = some TxStatus.confirmed
      ∨ (invest r env).state.txStatus = some TxStatus.failed)
    ∧ ((withdraw r env).state.txStatus = some TxStatus.confirmed
      ∨ (withdraw r env).state.txStatus = some TxStatus.failed)
    ∧ (∀ r2 : Run, r2.state.contract = none →
      (invest r2 env).state.txStatus = r2.state.txStatus
      ∧ (withdraw r2 env).state.txStatus = r2.state.txStatus)
    ∧ (∀ r3 : Run, amountGuardFails r3.state.amount = true →
      (invest r3 env).state.txStatus = r3.state.txStatus) := by
  refine ⟨fun ha => ?_, ?_, fun r2 h2 => ?_, fun r3 h3 => ?_⟩
  · rw [invest_txStatus_eq r env v hc ha]
    by_cases hcf : envConfirms env <;> simp [hcf]
  · rw [withdraw_txStatus_eq r env v hc]
    by_cases hcf : envConfirms env <;> simp [hcf]
  · rw [invest_noContract r2 env h2, withdraw_noContract r2 env h2]
    exact ⟨rfl, rfl⟩
  · cases h3c : r3.state.contract with
    | none => rw [invest_noContract r3 env h3c]
    | some v3 => rw [invest_badAmount r3 env v3 h3c h3]

/-- Witness for C2 amended at a concrete connected run with a confirmed
receipt. -/
theorem C2_status_after_action_amended_witness :
    (withdraw
      ⟨{ account := some "0xabc", provider := some "prov", contract := some "vault",
         balance := "0", amount := "", loading := false, txStatus := none,
         txHash := none, message := "", explorerBase := "https://etherscan.io" }, [], []⟩
      ⟨.ok "0xh", .ok (some ⟨1⟩), .ok 0⟩).state.txStatus = some TxStatus.confirmed
    ∨ (withdraw
      ⟨{ account := some "0xabc", provider := some "prov", contract := some "vault",
         balance := "0", amount := "", loading := false, txStatus := none,
         txHash := none, message := "", explorerBase := "https://etherscan.io" }, [], []⟩
      ⟨.ok "0xh", .ok (some ⟨1⟩), .ok 0⟩).state.txStatus = some TxStatus.failed :=
  (C2_status_after_action_amended
      ⟨{ account := some "0xabc", provider := some "prov", contract := some "vault",
         balance := "0", amount := "", loading := false, txStatus := none,
         txHash := none, message := "", explorerBase := "https://etherscan.io" }, [], []⟩
      ⟨.ok "0xh", .ok (some ⟨1⟩), .ok 0⟩ "vault" rfl).2.1

/-- C3: the activity log built by addTx never exceeds 20 entries, keeps
entries newest first (the fold of appends equals the reversed append
sequence truncated to 20, and the freshest entry is always at the head),
and each insertion keeps only the first 19 previous entries, evicting the
oldest once the cap is reached. -/
theorem C3_activity_log_cap (entries txs : List TxEntry) (e : TxEntry) :
    (entries.foldl addTx []).length ≤ 20
    ∧ entries.foldl addTx [] = entries.reverse.take 20
    ∧ (addTx txs e).head? = some e
    ∧ addTx txs e = e :: txs.take 19 := by
  have hfold := foldl_addTx entries [] (by simp)
  refine ⟨?_, by simpa using hfold, rfl, rfl⟩
  rw [hfold]
  exact List.length_take_le 20 (entries.reverse ++ [])

/-- C4: when the submission of an invest or withdraw throws an error
carrying code 4001 in its code or data.code field, the message is the
distinct user-rejection text rather than the generic failure message, the
status becomes failed, and no balances read is attempted. -/
theorem C4_user_rejection (r : Run) (env : TxEnv) (v : String) (e : ErrObj)
    (hc : r.state.contract = some v) (ha : amountGuardFails r.state.amount = false)
    (hs : env.submit = .err e)
    (h4 : e.code = some 4001 ∨ e.dataCode = some 4001) :
    ((invest r env).state.message = "Transaction rejected by user."
      ∧ (invest r env).state.txStatus = some TxStatus.failed
      ∧ (invest r env).balanceReads = r.balanceReads)
    ∧ ((withdraw r env).state.message = "Transaction rejected by user."
      ∧ (withdraw r env).state.txStatus = some TxStatus.failed
      ∧ (withdraw r env).balanceReads = r.balanceReads) := by
  have hrej : e.isUserRejection = true := by
    unfold ErrObj.isUserRejection
    rcases h4 with h | h <;> simp [h]
  have hi := invest_submit_throws r env v e hc ha hs
  have hwd := withdraw_submit_throws r env v e hc hs
  rw [hrej] at hi hwd
  simp only [if_true] at hi hwd
  exact ⟨hi, hwd⟩

/-- Witness for C4 at a concrete connected run whose withdraw submission
throws code 4001. -/
theorem C4_user_rejection_witness :
    (withdraw
      ⟨{ account := some "0xabc", provider := some "prov", contract := some "vault",
         balance := "0", amount := "0.5", loading := false, txStatus := none,
         txHash := none, message := "", explorerBase := "https://etherscan.io" }, [], []⟩
      ⟨.err ⟨some 4001, none, none, some "user rejected"⟩, .ok none, .ok 0⟩).state.message
      = "Transaction rejected by user." :=
  ((C4_user_rejection
      ⟨{ account := some "0xabc", provider := some "prov", contract := some "vault",
         balance := "0", amount := "0.5", loading := false, txStatus := none,
         txHash := none, message := "", explorerBase := "https://etherscan.io" }, [], []⟩
      ⟨.err ⟨some 4001, none, none, some "user rejected"⟩, .ok none, .ok 0⟩
      "vault" ⟨some 4001, none, none, some "user rejected"⟩
      rfl (by decide) rfl (Or.inl rfl)).2).1

/-- C5: in both balance-refresh helpers, a throwing balance accessor is
caught, a user-visible failure message is set, and the displayed balance is
left unchanged; on success the returned smallest-unit integer is stored as
the formatted decimal ETH string. -/
theorem C5_balance_refresh (r : Run) (st : EVState) (v a : String) (raw : Nat) (e : ErrObj) :
    (fetchVaultBalance r (some v) (some a) (.ok raw)).state.balance = formatEther raw
    ∧ (fetchVaultBalance r (some v) (some a) (.err e)).state.balance = r.state.balance
    ∧ (fetchVaultBalance r (some v) (some a) (.err e)).state.message
        = "Failed to fetch balance: " ++ jsNullish e.message errObjString
    ∧ (fetchBalance st (some v) (some a) (.ok raw)).balanceEth = formatEther raw
    ∧ (fetchBalance st (some v) (some a) (.err e)).balanceEth = st.balanceEth
    ∧ (fetchBalance st (some v) (some a) (.err e)).status
        = "Failed to fetch balance: " ++ jsOrStr e.message errObjString := by
  exact ⟨rfl, rfl, rfl, rfl, rfl, rfl⟩

/-- C6 counterexample: an accounts-changed notification with an empty list
does not clear the provider handle, so the Session in the sense of the
data model (account, provider, signer, contract) is not fully cleared. -/
theorem C6_disconnect_counterexample :
    (onAccountsChanged
      ⟨{ account := some "0xabc", provider := some "prov", contract := some "vault",
         balance := "0", amount := "", loading := false, txStatus := none,
         txHash := none, message := "", explorerBase := "https://etherscan.io" }, [], []⟩
      [] (.ok 0)).state.provider = some "prov" := by
  exact rfl

/-- C6 amended: on an empty accounts-changed notification the account
address and the bound contract handle are cleared and the message becomes
Disconnected, but the provider handle is left unchanged (and the dashboard
stores no signer handle at all). -/
theorem C6_disconnect_amended (r : Run) (balOut : Outcome Nat) :
    (onAccountsChanged r [] balOut).state.account = none
    ∧ (onAccountsChanged r [] balOut).state.contract = none
    ∧ (onAccountsChanged r [] balOut).state.message = "Disconnected"
    ∧ (onAccountsChanged r [] balOut).state.provider = r.state.provider := by
  exact ⟨rfl, rfl, rfl, rfl⟩

/-- C7: explorer base resolution returns the table entry for the known
chain ids 1, 5 and 11155111 and the mainnet explorer root for every other
chain id; transaction links are explorerBase/tx/hash. -/
theorem C7_explorer_resolution (c : Nat) (b h : String)
    (h1 : c ≠ 1) (h5 : c ≠ 5) (hs : c ≠ 11155111) :
    explorerBaseForChain c = "https://etherscan.io"
    ∧ explorerBaseForChain 1 = "https://etherscan.io"
    ∧ explorerBaseForChain 5 = "https://goerli.etherscan.io"
    ∧ explorerBaseForChain 11155111 = "https://sepolia.etherscan.io"
    ∧ txLink b h = b ++ "/tx/" ++ h := by
  refine ⟨?_, rfl, rfl, rfl, rfl⟩
  unfold explorerBaseForChain EXPLORER_BY_CHAIN
  simp [h1, h5, hs]

/-- Witness for C7 at the unrecognized chain id 1337. -/
theorem C7_explorer_resolution_witness :
    explorerBaseForChain 1337 = "https://etherscan.io" :=
  (C7_explorer_resolution 1337 "https://etherscan.io" "0xh"
    (by decide) (by decide) (by decide)).1

/-- C8: connectWallet reports the missing-wallet error and does not invoke
the callback when no injected wallet object is present; every throw inside
the connection sequence is caught into an alert message with the callback
not invoked; and the callback only ever fires when the wallet is present
and no step failed, so no exception escapes. -/
theorem C8_connect_wallet (env : ConnectEnv) :
    ((connectWallet env).callback.isSome = true →
      env.hasEthereum = true ∧ connectFailure env = none)
    ∧ (env.hasEthereum = false →
      (connectWallet env).alerted = some "MetaMask not detected"
      ∧ (connectWallet env).callback = none)
    ∧ (∀ e : ErrObj, env.hasEthereum = true → connectFailure env = some e →
      (connectWallet env).alerted
        = some ("Failed to connect wallet: " ++ jsNullish e.message errObjString)
      ∧ (connectWallet env).callback = none) := by
  obtain ⟨he, ra, sg, ad⟩ := env
  cases he <;> cases ra <;> cases sg <;> cases ad <;>
    simp [connectWallet, connectFailure, connectCatch]

/-- Witness for C8 with the injected wallet absent. -/
theorem C8_connect_wallet_witness :
    (connectWallet ⟨false, .ok (), .ok "signer", .ok "0xabc"⟩).alerted
      = some "MetaMask not detected"
    ∧ (connectWallet ⟨false, .ok (), .ok "signer", .ok "0xabc"⟩).callback = none :=
  (C8_connect_wallet ⟨false, .ok (), .ok "signer", .ok "0xabc"⟩).2.1 rfl

/-- C9: an accounts-changed notification with a nonempty list makes the
dashboard adopt the first address as the current account and refresh the
balance against the existing contract handle for that address. -/
theorem C9_account_switch (r : Run) (a c : String) (rest : List String)
    (balOut : Outcome Nat) (hc : r.state.contract = some c) :
    (onAccountsChanged r (a :: rest) balOut).state.account = some a
    ∧ (onAccountsChanged r (a :: rest) balOut).balanceReads
        = r.balanceReads ++ [(c, a)] := by
  unfold onAccountsChanged
  simp only [hc]
  exact ⟨(fetchVaultBalance_frame _ _ _ _).2.2.2.1, fetchVaultBalance_reads _ _ _ _⟩

/-- Witness for C9 at a concrete connected run. -/
theorem C9_account_switch_witness :
    (onAccountsChanged
      ⟨{ account := some "0xabc", provider := some "prov", contract := some "vault",
         balance := "0", amount := "", loading := false, txStatus := none,
         txHash := none, message := "", explorerBase := "https://etherscan.io" }, [], []⟩
      ["0xnew"] (.ok 0)).state.account = some "0xnew" :=
  (C9_account_switch
      ⟨{ account := some "0xabc", provider := some "prov", contract := some "vault",
         balance := "0", amount := "", loading := false, txStatus := none,
         txHash := none, message := "", explorerBase := "https://etherscan.io" }, [], []⟩
      "0xnew" "vault" [] (.ok 0) rfl).1

/-- C10 counterexample: an invest whose receipt carries status 0 ends
failed, yet the entered amount 1 is cleared, not preserved. -/
theorem C10_amount_clear_counterexample :
    (invest
      ⟨{ account := some "0xabc", provider := some "prov", contract := some "vault",
         balance := "0", amount := "1", loading := false, txStatus := none,
         txHash := none, message := "", explorerBase := "https://etherscan.io" }, [], []⟩
      ⟨.ok "0xh", .ok (some ⟨0⟩), .ok 0⟩).state.txStatus = some TxStatus.failed
    ∧ (invest
      ⟨{ account := some "0xabc", provider := some "prov", contract := some "vault",
         balance := "0", amount := "1", loading := false, txStatus := none,
         txHash := none, message := "", explorerBase := "https://etherscan.io" }, [], []⟩
      ⟨.ok "0xh", .ok (some ⟨0⟩), .ok 0⟩).state.amount = "" := by
  exact ⟨by decide, by decide⟩

/-- C10 amended: whenever the submission is accepted and a receipt is
received, a balances read is performed regardless of the receipt status
indicator, and invest clears the entered amount on both receipt outcomes;
the amount is preserved only when the call throws before a receipt, and
withdraw never writes the amount field. -/
theorem C10_refresh_and_amount_amended (r : Run) (env : TxEnv) (v a : String)
    (hc : r.state.contract = some v) (hac : r.state.account = some a)
    (ha : amountGuardFails r.state.amount = false) :
    (envHasReceipt env = true →
      (invest r env).balanceReads = r.balanceReads ++ [(v, a)]
      ∧ (withdraw r env).balanceReads = r.balanceReads ++ [(v, a)]
      ∧ (invest r env).state.amount = "")
    ∧ (envHasReceipt env = false →
      (invest r env).balanceReads = r.balanceReads
      ∧ (withdraw r env).balanceReads = r.balanceReads
      ∧ (invest r env).state.amount = r.state.amount)
    ∧ (withdraw r env).state.amount = r.state.amount := by
  refine ⟨fun h => ?_, fun h => ?_, withdraw_amount_frame r env⟩
  · rw [invest_balanceReads_eq r env v a hc hac ha,
        withdraw_balanceReads_eq r env v a hc hac, invest_amount_eq r env v hc ha]
    simp [h]
  · rw [invest_balanceReads_eq r env v a hc hac ha,
        withdraw_balanceReads_eq r env v a hc hac, invest_amount_eq r env v hc ha]
    simp [h]

/-- Witness for C10 amended at a concrete connected run with a status-0
receipt. -/
theorem C10_refresh_and_amount_amended_witness :
    (invest
      ⟨{ account := some "0xabc", provider := some "prov", contract := some "vault",
         balance := "0", amount := "1", loading := false, txStatus := none,
         txHash := none, message := "", explorerBase := "https://etherscan.io" }, [], []⟩
      ⟨.ok "0xh", .ok (some ⟨0⟩), .ok 0⟩).balanceReads = [] ++ [("vault", "0xabc")]
    ∧ (withdraw
      ⟨{ account := some "0xabc", provider := some "prov", contract := some "vault",
         balance := "0", amount := "1", loading := false, txStatus := none,
         txHash := none, message := "", explorerBase := "https://etherscan.io" }, [], []⟩
      ⟨.ok "0xh", .ok (some ⟨0⟩), .ok 0⟩).balanceReads = [] ++ [("vault", "0xabc")]
    ∧ (invest
      ⟨{ account := some "0xabc", provider := some "prov", contract := some "vault",
         balance := "0", amount := "1", loading := false, txStatus := none,
         txHash := none, message := "", explorerBase := "https://etherscan.io" }, [], []⟩
      ⟨.ok "0xh", .ok (some ⟨0⟩), .ok 0⟩).state.amount = "" :=
  (C10_refresh_and_amount_amended
      ⟨{ account := some "0xabc", provider := some "prov", contract := some "vault",
         balance := "0", amount := "1", loading := false, txStatus := none,
         txHash := none, message := "", explorerBase := "https://etherscan.io" }, [], []⟩
      ⟨.ok "0xh", .ok (some ⟨0⟩), .ok 0⟩ "vault" "0xabc"
      rfl rfl (by decide)).1 rfl

end ExitDapp
